import Mathlib

/-!
Verification development for the `my-agent` repository: a shallow embedding of
the agent engine's data model and operations, with theorems checking the
natural-language specification against them.

The repository's agent module (`my_agent/agent/my_agent.py`, `my_agent/agent/base.py`,
`my_agent/tools/base.py`) is not present in the source tree; only its tests and
callers are.  Definitions for those parts are modelled from the specification and
are marked as such in their doc comments.  Everything else is translated directly
from the Python sources under `src/`.
-/

set_option autoImplicit false

namespace MyAgent

/-- A JSON-compatible value, as produced by Python's `json.load` and passed
around in argument mappings and configuration dictionaries.  Numbers are
modelled as rationals (covering both ints and the decimal literals that appear
in the configuration defaults). -/
inductive JVal where
  | null
  | str (s : String)
  | num (q : Rat)
  | bool (b : Bool)
  | obj (fields : List (String × JVal))
  | arr (elems : List JVal)
deriving Repr, BEq

/-- Look up a key in a JSON-object field list (Python `dict.get(key)`:
first matching key). -/
def lookupArg (args : List (String × JVal)) (key : String) : Option JVal :=
  (args.find? (fun kv => kv.1 = key)).map Prod.snd

/-- From `my_agent/utils/llm_basics.py`: token usage counts of one LLM response. -/
structure LLMUsage where
  prompt_tokens : Nat := 0
  completion_tokens : Nat := 0
  total_tokens : Nat := 0
deriving Repr, DecidableEq

/-- `LLMUsage.__add__` from `my_agent/utils/llm_basics.py`: field-wise addition. -/
def LLMUsage.add (a b : LLMUsage) : LLMUsage :=
  { prompt_tokens := a.prompt_tokens + b.prompt_tokens
    completion_tokens := a.completion_tokens + b.completion_tokens
    total_tokens := a.total_tokens + b.total_tokens }

/-- The all-zero usage (the dataclass's default construction). -/
def LLMUsage.zero : LLMUsage := {}

/-!
## Diff splitting and test-patch filtering

Modelled from the spec: `MyAgent.remove_patches_to_tests` is absent from the
source tree (only `test_patch_filtering` in `src/tests/agent/test_my_agent.py`
exercises it).  Per §4.4 of the spec, a unified-diff document is split at each
header line of the form `diff --git a/<path> b/<path>` into per-file segments;
every segment whose path matches the test-file naming convention is dropped in
full; the remaining segments are concatenated in original order, yielding the
empty string when none remain.  Text before the first header belongs to no
test file and is kept.

Lines are processed at the character level so that every step is a plain
structural recursion the kernel can evaluate.
-/

/-- Split a character list at every occurrence of the separator character.
Mirrors Python `str.split(sep)`: always returns at least one (possibly empty)
piece, and no piece contains the separator. -/
def splitOnCh (sep : Char) : List Char → List (List Char)
  | [] => [[]]
  | c :: cs =>
    if c = sep then [] :: splitOnCh sep cs
    else
      match splitOnCh sep cs with
      | [] => [[c]]
      | l :: ls => (c :: l) :: ls

/-- Join pieces back with a separator character (inverse of `splitOnCh`). -/
def joinWithCh (sep : Char) : List (List Char) → List Char
  | [] => []
  | [l] => l
  | l :: l2 :: ls => l ++ sep :: joinWithCh sep (l2 :: ls)

/-- The per-file header marker of a unified git diff, up to the start of the
old path. -/
def headerMark : List Char := "diff --git a/".toList

/-- Does this line start a new per-file segment? -/
def isDiffHeader (l : List Char) : Bool := headerMark.isPrefixOf l

/-- Keep the characters of a line before the first occurrence of a separator
string. -/
def takeBeforeSep (sep : List Char) : List Char → List Char
  | [] => []
  | c :: cs => if sep.isPrefixOf (c :: cs) then [] else c :: takeBeforeSep sep cs

/-- The `<path>` of a `diff --git a/<path> b/<path>` header line. -/
def headerPathCh (l : List Char) : List Char :=
  takeBeforeSep " b/".toList (l.drop headerMark.length)

/-- Is one path component a test directory name? -/
def isTestComponent (comp : List Char) : Bool :=
  comp == "test".toList || comp == "tests".toList || comp == "testing".toList

/-- Modelled from the spec: the test-file naming convention of §4.4 — a path
inside a `test`/`tests`/`testing` directory, or whose file name starts with
`test_` or ends with `_test.py`. -/
def isTestPath (p : List Char) : Bool :=
  let comps := splitOnCh '/' p
  comps.any isTestComponent ||
    (match comps.getLast? with
     | some base => "test_".toList.isPrefixOf base || "_test.py".toList.isSuffixOf base
     | none => false)

/-- The keep/drop state after seeing a line: a header line decides the fate of
its whole segment, any other line inherits the current segment's fate. -/
def segKeep (st : Bool) (l : List Char) : Bool :=
  if isDiffHeader l then !(isTestPath (headerPathCh l)) else st

/-- Drop every line belonging to a test-file segment; `st` is the fate of the
current segment (`true` initially: a preamble before any header is kept). -/
def filterDiffLines (st : Bool) : List (List Char) → List (List Char)
  | [] => []
  | l :: ls =>
    if segKeep st l then l :: filterDiffLines (segKeep st l) ls
    else filterDiffLines (segKeep st l) ls

/-- Modelled from the spec: `MyAgent.remove_patches_to_tests` (§4.4) — remove
from a unified diff every per-file segment whose path matches the test-file
naming convention. -/
def remove_patches_to_tests (d : String) : String :=
  String.mk (joinWithCh '\n' (filterDiffLines true (splitOnCh '\n' d.toList)))

/-- The diff of `test_patch_filtering` in `src/tests/agent/test_my_agent.py`:
a hunk touching only `tests/test_example.py`. -/
def testOnlyPatch : String :=
  "diff --git a/tests/test_example.py b/tests/test_example.py\n--- a/tests/test_example.py\n+++ b/tests/test_example.py\n@@ -5,6 +5,7 @@\n    def test_example(self):\n        assert True\n"

/-- A diff with one test-file segment and one non-test segment. -/
def mixedPatch : String :=
  "diff --git a/tests/test_example.py b/tests/test_example.py\n--- a/tests/test_example.py\n+++ b/tests/test_example.py\n@@ -1,1 +1,2 @@\n+x\ndiff --git a/src/core.py b/src/core.py\n--- a/src/core.py\n+++ b/src/core.py\n@@ -1,1 +1,2 @@\n+y\n"

/-- The non-test segment of `mixedPatch`, byte for byte. -/
def corePatchSegment : String :=
  "diff --git a/src/core.py b/src/core.py\n--- a/src/core.py\n+++ b/src/core.py\n@@ -1,1 +1,2 @@\n+y\n"

end MyAgent

namespace MyAgent

/-! ### Lemmas about line splitting and the diff filter -/

theorem splitOnCh_ne_nil (sep : Char) (cs : List Char) : splitOnCh sep cs ≠ [] := by
  induction cs with
  | nil => simp [splitOnCh]
  | cons c cs ih =>
    simp only [splitOnCh]
    split
    · simp
    · cases h : splitOnCh sep cs with
      | nil => simp
      | cons l ls => simp [h]

theorem splitOnCh_not_mem (sep : Char) (cs : List Char) :
    ∀ l ∈ splitOnCh sep cs, sep ∉ l := by
  induction cs with
  | nil =>
    intro l hl
    simp [splitOnCh] at hl
    simp [hl]
  | cons c cs ih =>
    intro l hl
    simp only [splitOnCh] at hl
    by_cases hc : c = sep
    · simp [hc] at hl
      rcases hl with h | h
      · simp [h]
      · exact ih l h
    · simp [hc] at hl
      cases h : splitOnCh sep cs with
      | nil => exact absurd h (splitOnCh_ne_nil sep cs)
      | cons l0 ls0 =>
        rw [h] at hl
        rcases List.mem_cons.mp hl with h1 | h1
        · subst h1
          intro hmem
          rcases List.mem_cons.mp hmem with h2 | h2
          · exact hc h2.symm
          · exact ih l0 (h ▸ List.mem_cons_self l0 ls0) h2
        · exact ih l (h ▸ List.mem_cons_of_mem l0 h1)

theorem splitOnCh_of_no_sep (sep : Char) (p : List Char) (hp : sep ∉ p) :
    splitOnCh sep p = [p] := by
  induction p with
  | nil => simp [splitOnCh]
  | cons c cs ih =>
    have hc : ¬ c = sep := fun h => hp (h ▸ List.mem_cons_self c cs)
    have hcs : sep ∉ cs := fun h => hp (List.mem_cons_of_mem c h)
    simp only [splitOnCh, if_neg hc, ih hcs]

theorem splitOnCh_append_sep (sep : Char) (p rest : List Char) (hp : sep ∉ p) :
    splitOnCh sep (p ++ sep :: rest) = p :: splitOnCh sep rest := by
  induction p with
  | nil => simp [splitOnCh]
  | cons c cs ih =>
    have hc : ¬ c = sep := fun h => hp (h ▸ List.mem_cons_self c cs)
    have hcs : sep ∉ cs := fun h => hp (List.mem_cons_of_mem c h)
    simp only [List.cons_append, splitOnCh, if_neg hc, List.append_eq, ih hcs]

theorem splitOnCh_joinWithCh (sep : Char) (pieces : List (List Char))
    (hne : pieces ≠ []) (hsep : ∀ l ∈ pieces, sep ∉ l) :
    splitOnCh sep (joinWithCh sep pieces) = pieces := by
  induction pieces with
  | nil => exact absurd rfl hne
  | cons p ps ih =>
    cases ps with
    | nil =>
      simp only [joinWithCh]
      exact splitOnCh_of_no_sep sep p (hsep p (List.mem_cons_self p []))
    | cons p2 ps2 =>
      have hp : sep ∉ p := hsep p (List.mem_cons_self p (p2 :: ps2))
      have hrest : ∀ l ∈ p2 :: ps2, sep ∉ l :=
        fun l hl => hsep l (List.mem_cons_of_mem p hl)
      simp only [joinWithCh, splitOnCh_append_sep sep p _ hp]
      rw [ih (by simp) hrest]

theorem filterDiffLines_subset (st : Bool) (ls : List (List Char)) :
    ∀ l ∈ filterDiffLines st ls, l ∈ ls := by
  induction ls generalizing st with
  | nil => intro l hl; simp [filterDiffLines] at hl
  | cons x xs ih =>
    intro l hl
    simp only [filterDiffLines] at hl
    split at hl
    · rcases List.mem_cons.mp hl with h | h
      · exact h ▸ List.mem_cons_self x xs
      · exact List.mem_cons_of_mem x (ih _ l h)
    · exact List.mem_cons_of_mem x (ih _ l hl)

theorem segKeep_true_of_emitted (st : Bool) (l : List Char) (h : segKeep st l = true) :
    segKeep true l = true := by
  unfold segKeep at h ⊢
  split at h
  · next hh => rw [if_pos hh]; exact h
  · next hh => rw [if_neg hh]

theorem filterDiffLines_idem (ls : List (List Char)) (st : Bool) :
    filterDiffLines true (filterDiffLines st ls) = filterDiffLines st ls := by
  induction ls generalizing st with
  | nil => rfl
  | cons l ls ih =>
    cases h : segKeep st l with
    | false =>
      simp only [filterDiffLines, h]
      simpa using ih false
    | true =>
      have hl2 : segKeep true l = true := segKeep_true_of_emitted st l h
      simp only [filterDiffLines, h, hl2, if_pos rfl]
      exact congrArg (l :: ·) (ih true)

theorem toList_mk (l : List Char) : (String.mk l).toList = l := rfl

theorem remove_patches_to_tests_idem (d : String) :
    remove_patches_to_tests (remove_patches_to_tests d) = remove_patches_to_tests d := by
  unfold remove_patches_to_tests
  rw [toList_mk]
  generalize hout : filterDiffLines true (splitOnCh '\n' d.toList) = out
  have hmem : ∀ l ∈ out, '\n' ∉ l := by
    intro l hl
    rw [← hout] at hl
    exact splitOnCh_not_mem '\n' d.toList l
      (filterDiffLines_subset true (splitOnCh '\n' d.toList) l hl)
  have hfix : filterDiffLines true out = out := by
    rw [← hout]
    exact filterDiffLines_idem _ true
  cases out with
  | nil => rfl
  | cons p ps =>
    rw [splitOnCh_joinWithCh '\n' (p :: ps) (by simp) hmem, hfix]

/-!
## Completion Evaluator

Modelled from the spec: `MyAgent.is_task_completed` is absent from the source
tree (only `test_task_completion_detection` exercises it).  Per §4.4, when the
task requires a mandatory patch the workspace diff is filtered through
`remove_patches_to_tests` and the task is complete only if the filtered diff is
non-empty, regardless of the model's claims; without the mandatory-patch flag a
model-declared completion is accepted.
-/

/-- Modelled from the spec: the completion decision of §4.4.  `model_claims_done`
stands for the model-declared completion carried by the LLM response argument;
`git_diff` is the workspace diff produced by the external diff collaborator. -/
def is_task_completed (must_patch : Bool) (model_claims_done : Bool)
    (git_diff : String) : Bool :=
  if must_patch then !(remove_patches_to_tests git_diff == "") else model_claims_done

/-!
## Tool layer

`ToolExecResult`, `ToolCall` and `ToolResult` live in `my_agent/tools/base.py`,
which is absent from the source tree; their fields are reconstructed from their
uses in `my_agent/utils/llm_client.py`, `my_agent/tools/bash_tool.py` and §3 of
the spec.
-/

/-- The result a tool execution returns (fields as used by
`my_agent/tools/bash_tool.py`: optional output, optional error, numeric code,
defaulting to a zero code with neither text). -/
structure ToolExecResult where
  output : Option String := none
  error : Option String := none
  error_code : Int := 0
deriving Repr, DecidableEq

/-- A tool-call request produced by the model layer (fields as constructed in
`my_agent/utils/llm_client.py`: `ToolCall(name, call_id, arguments, id)`). -/
structure ToolCall where
  name : String
  call_id : String
  arguments : List (String × JVal)
  id : String
deriving Repr

/-- A tool result correlated to a call (spec §3: identifier, optional output
text, optional error text, numeric status code). -/
structure ToolResult where
  call_id : String
  result : Option String := none
  error : Option String := none
  status : Int := 0
deriving Repr

/-- A resolved tool: a stable name plus an execution entry point.  Python
exceptions escaping `execute` are modelled by the `Except` error case. -/
structure Tool where
  get_name : String
  exec : List (String × JVal) → Except String ToolExecResult

/-- The failure result `BashTool.execute` returns when the `command` argument
is absent, not a string, or empty (`bash_tool.py` lines 55-60). -/
def noCommandResult : ToolExecResult :=
  { error := some "No command provided for the bash tool", error_code := -1 }

/-- From `my_agent/tools/bash_tool.py`, `BashTool.execute`.  The subprocess is
the external collaborator: `shell` returns either the raised exception's text
or `(stdout, stderr, returncode)`, with `none` standing for a `None` return
code. -/
def BashTool.execute (shell : String → Except String (String × String × Option Int))
    (arguments : List (String × JVal)) : ToolExecResult :=
  match lookupArg arguments "command" with
  | some (JVal.str c) =>
    if c = "" then noCommandResult
    else
      match shell c with
      | Except.ok (stdout, stderr, returncode) =>
        { output := some stdout.trim
          error := some stderr.trim
          error_code := returncode.getD 0 }
      | Except.error e =>
        { error := some ("Error running bash command: " ++ e), error_code := -1 }
  | _ => noCommandResult

/-!
## Tool Dispatcher

Modelled from the spec: the dispatcher itself is part of the absent agent
module.  Per §4.3, `dispatch` executes the calls sequentially in request order,
one `ToolResult` per `ToolCall`, matching each call to the tool of the same
name; an unresolvable name or an exception escaping a tool is converted into an
error result at the boundary and never propagates.
-/

/-- Modelled from the spec (§4.3): execute one call against the resolved tool
set, converting every failure into an error `ToolResult`. -/
def execOneCall (tools : List Tool) (c : ToolCall) : ToolResult :=
  match tools.find? (fun t => t.get_name = c.name) with
  | none =>
    { call_id := c.id, error := some ("Tool " ++ c.name ++ " not found"), status := -1 }
  | some t =>
    match t.exec c.arguments with
    | Except.ok r => { call_id := c.id, result := r.output, error := r.error, status := r.error_code }
    | Except.error e =>
      { call_id := c.id, error := some ("Tool execution failed: " ++ e), status := -1 }

/-- Modelled from the spec (§4.3): sequential, order-preserving dispatch. -/
def dispatch (tools : List Tool) (calls : List ToolCall) : List ToolResult :=
  calls.map (execOneCall tools)

/-!
## Capability Registry

Modelled from the spec: the registry is part of the absent agent module.  Per
§4.1 an empty/unset name list resolves to the default tool set of four tools
including the shell-execution tool; an unknown name fails with
`UnknownToolError`.  The four tool names are the ones
`test_tool_initialization` requests explicitly.
-/

/-- Setup-time failures of the Task Orchestrator (spec §7: `ConfigurationError`
with a `MissingParameterError` for absent required options, `UnknownToolError`
for unresolvable tool names). -/
inductive SetupError where
  | MissingParameterError (param : String)
  | UnknownToolError (name : String)
deriving Repr, DecidableEq

/-- The registered tool names (the default set of §4.1, in default order). -/
def known_tools : List String :=
  ["bash", "str_replace_based_edit_tool", "sequentialthinking", "task_done"]

/-- Modelled from the spec: construct the registered tool of a given name.  The
execution bodies of the non-shell tools are absent from the source tree and no
claim depends on them; the shell tool's behaviour is `BashTool.execute` with
the subprocess collaborator left abstract. -/
def mkTool (name : String) : Tool :=
  { get_name := name, exec := fun _ => Except.ok {} }

/-- Modelled from the spec (§4.1): resolve each requested name, failing with
`UnknownToolError` on the first unregistered one. -/
def resolveNames : List String → Except SetupError (List Tool)
  | [] => Except.ok []
  | n :: ns =>
    if n ∈ known_tools then
      match resolveNames ns with
      | Except.ok ts => Except.ok (mkTool n :: ts)
      | Except.error e => Except.error e
    else Except.error (SetupError.UnknownToolError n)

/-- Modelled from the spec (§4.1): an empty/unset name list resolves the
default tool set. -/
def resolve (names : List String) : Except SetupError (List Tool) :=
  resolveNames (if names.isEmpty then known_tools else names)

/-!
## Task Orchestrator state and `new_task`

Modelled from the spec: `MyAgent.new_task` (§4.5) is part of the absent agent
module.  It validates the required options (workspace root `project_path` and
task `issue` text) before any state is touched, then resolves the tool set and
resets the conversation and execution state.
-/

/-- A conversation message (role, content). -/
structure Message where
  role : String
  content : String
deriving Repr, DecidableEq

/-- The per-task extra arguments accepted by `new_task` (keys observed in
`test_new_task_initialization`). -/
structure TaskArgs where
  project_path : Option String := none
  issue : Option String := none
  base_commit : Option String := none
  must_patch : Option String := none
  patch_path : Option String := none
  tool_names : Option (List String) := none

/-- The engine state owned by one agent instance (spec §3: task, workspace
root, tool set, conversation, execution record). -/
structure MyAgentState where
  task : Option String := none
  project_path : Option String := none
  issue : Option String := none
  must_patch : Option String := none
  tools : List Tool := []
  conversation : List Message := []
  execution_record : Option (List Message) := none

/-- Modelled from the spec (§4.5): validate required options, then resolve
tools and reset the per-task state.  On any failure the engine state is
returned unchanged alongside the error. -/
def new_task (a : MyAgentState) (task : String) (args : TaskArgs) :
    MyAgentState × Except SetupError Unit :=
  match args.project_path with
  | none => (a, Except.error (SetupError.MissingParameterError "project_path"))
  | some pp =>
    match args.issue with
    | none => (a, Except.error (SetupError.MissingParameterError "issue"))
    | some iss =>
      match resolve (args.tool_names.getD []) with
      | Except.error e => (a, Except.error e)
      | Except.ok ts =>
        ({ task := some task
           project_path := some pp
           issue := some iss
           must_patch := args.must_patch
           tools := ts
           conversation := [{ role := "user", content := task }]
           execution_record := none }, Except.ok ())

/-!
## Step loop and Execution record

Modelled from the spec: `MyAgent.execute_task` (§4.2, §4.5) is part of the
absent agent module.  Each step's interaction with the Model Gateway, Tool
Dispatcher and Completion Evaluator is summarized by an oracle giving, per
step number, the step's terminal effect and its token usage; the orchestrator
owns the 1-based step numbering, the step budget and the usage accumulation.
-/

/-- How a step ends: continue to the next step, complete the task, or fail. -/
inductive StepOutcome where
  | cont
  | completed (result : String)
  | errored (msg : String)
deriving Repr, DecidableEq

/-- One recorded step (spec §3 `AgentStep`: 1-based step number, outcome,
token usage). -/
structure StepRecord where
  step_number : Nat
  outcome : StepOutcome
  usage : LLMUsage
deriving Repr, DecidableEq

/-- The terminal execution record (field names as read by
`my_agent/utils/cli_console.py` and `debug_agent.py`). -/
structure AgentExecution where
  success : Bool
  final_result : Option String
  steps : List StepRecord
  total_tokens : LLMUsage
deriving Repr, DecidableEq

/-- Modelled from the spec (§4.2, §4.5): run steps `n, n+1, ...` with `fuel`
steps of budget left; exhausting the budget while non-terminal produces the
synthetic max-steps failure. -/
def runFrom (oracle : Nat → StepOutcome × LLMUsage) : Nat → Nat → AgentExecution
  | 0, _ =>
    { success := false, final_result := some "max steps exceeded", steps := []
      total_tokens := LLMUsage.zero }
  | fuel + 1, n =>
    let r := oracle n
    let step : StepRecord := { step_number := n, outcome := r.1, usage := r.2 }
    match r.1 with
    | StepOutcome.completed res =>
      { success := true, final_result := some res, steps := [step], total_tokens := r.2 }
    | StepOutcome.errored msg =>
      { success := false, final_result := some msg, steps := [step], total_tokens := r.2 }
    | StepOutcome.cont =>
      let ex := runFrom oracle fuel (n + 1)
      { success := ex.success, final_result := ex.final_result
        steps := step :: ex.steps
        total_tokens := LLMUsage.add r.2 ex.total_tokens }

/-- Modelled from the spec (§4.5): drive the step state machine from step 1
under the configured step budget. -/
def execute_task (oracle : Nat → StepOutcome × LLMUsage) (max_steps : Nat) :
    AgentExecution :=
  runFrom oracle max_steps 1

/-!
## Model Gateway (`my_agent/utils/llm_client.py`)

The provider SDK call is the external collaborator: it either raises (modelled
by the `Except` error carrying the exception text) or returns a raw response.
`LLMClient.chat` installs no exception handler, so a raised SDK error leaves
`chat` unchanged; the raw-response parsing below is the OpenAI-compatible
branch (`_chat_openai_compatible`, lines 237-266).
-/

/-- From `my_agent/utils/llm_basics.py`: the response handed back by the
gateway. -/
structure LLMResponse where
  content : String
  tool_calls : Option (List ToolCall) := none
  usage : Option LLMUsage := none
  model : Option String := none
  finish_reason : Option String := none
deriving Repr

/-- A tool call as it appears in a raw OpenAI-compatible response
(`tc.function.name`, `tc.function.arguments` after `json.loads`, `tc.id`). -/
structure RawToolCall where
  id : String
  function_name : String
  function_arguments : List (String × JVal)
deriving Repr

/-- The message of a raw response's first choice: `content` may be `None`,
`tool_calls` may be `None` or empty (both falsy in Python, modelled as `[]`). -/
structure RawMessage where
  content : Option String := none
  tool_calls : List RawToolCall := []
deriving Repr

/-- The raw usage block of an OpenAI-compatible response. -/
structure RawUsage where
  prompt_tokens : Nat
  completion_tokens : Nat
  total_tokens : Nat
deriving Repr

/-- The parts of a raw OpenAI-compatible response the client reads
(`response.choices[0]`, `response.usage`, `response.model`). -/
structure RawResponse where
  message : RawMessage
  finish_reason : Option String := none
  usage : Option RawUsage := none
  model : String := ""
deriving Repr

/-- `LLMClient._chat_openai_compatible`, response-parsing part
(`llm_client.py` lines 237-266): `content = message.content or ""`;
`tool_calls` stays `None` when the raw list is falsy; usage copied when
present. -/
def chat_openai_compatible (r : RawResponse) : LLMResponse :=
  { content := r.message.content.getD ""
    tool_calls :=
      if r.message.tool_calls.isEmpty then none
      else some (r.message.tool_calls.map (fun tc =>
        { name := tc.function_name, call_id := tc.id
          arguments := tc.function_arguments, id := tc.id }))
    usage := r.usage.map (fun u =>
      { prompt_tokens := u.prompt_tokens
        completion_tokens := u.completion_tokens
        total_tokens := u.total_tokens })
    model := some r.model
    finish_reason := r.finish_reason }

/-- `LLMClient.chat` (`llm_client.py` lines 61-76) around the provider call:
there is no handler, so an SDK exception propagates unchanged; a returned raw
response is parsed. -/
def LLMClient.chat (api : Except String RawResponse) : Except String LLMResponse :=
  match api with
  | Except.error e => Except.error e
  | Except.ok r => Except.ok (chat_openai_compatible r)

/-- A raw response whose message carries neither content nor tool calls. -/
def emptyRawResponse : RawResponse :=
  { message := { content := none, tool_calls := [] }, finish_reason := some "stop"
    usage := none, model := "gpt-4o" }

/-!
## Configuration loading (`my_agent/utils/config.py`)

The file system and process environment are the external collaborators: the
configuration file is given as its read-and-parse outcome, and `os.getenv` as a
partial map.  Field values are kept as JSON values because the Python
dataclasses never validate the types of what the file supplies.
-/

/-- `ModelParameters` from `config.py` with the dataclass defaults (`model`
has no default in Python; its presence is enforced by `mkModelParameters`). -/
structure ModelParameters where
  model : JVal := JVal.null
  api_key : JVal := JVal.null
  base_url : JVal := JVal.null
  api_version : JVal := JVal.null
  max_tokens : JVal := JVal.num 4096
  temperature : JVal := JVal.num (1 / 2)
  top_p : JVal := JVal.num 1
  top_k : JVal := JVal.num 0
  max_retries : JVal := JVal.num 10
  parallel_tool_calls : JVal := JVal.bool true
deriving Repr, BEq

/-- The attribute names of `ModelParameters` (what `hasattr` accepts). -/
def paramFieldNames : List String :=
  ["model", "api_key", "base_url", "api_version", "max_tokens", "temperature",
   "top_p", "top_k", "max_retries", "parallel_tool_calls"]

/-- `setattr(provider_params, key, value)` guarded by `hasattr` (`config.py`
lines 157-159): unknown keys are silently skipped. -/
def setParamAttr (p : ModelParameters) (key : String) (v : JVal) : ModelParameters :=
  if key = "model" then { p with model := v }
  else if key = "api_key" then { p with api_key := v }
  else if key = "base_url" then { p with base_url := v }
  else if key = "api_version" then { p with api_version := v }
  else if key = "max_tokens" then { p with max_tokens := v }
  else if key = "temperature" then { p with temperature := v }
  else if key = "top_p" then { p with top_p := v }
  else if key = "top_k" then { p with top_k := v }
  else if key = "max_retries" then { p with max_retries := v }
  else if key = "parallel_tool_calls" then { p with parallel_tool_calls := v }
  else p

/-- Apply the key/value pairs of a provider entry in order. -/
def applyParamOverrides (p : ModelParameters) (kvs : List (String × JVal)) :
    ModelParameters :=
  kvs.foldl (fun acc kv => setParamAttr acc kv.1 kv.2) p

/-- `ModelParameters(**provider_config)` (`config.py` line 162): a `TypeError`
is raised for an unexpected keyword or when the required `model` argument is
missing. -/
def mkModelParameters (kvs : List (String × JVal)) : Except String ModelParameters :=
  if kvs.any (fun kv => !(paramFieldNames.contains kv.1)) then
    Except.error "TypeError: ModelParameters got an unexpected keyword argument"
  else
    match lookupArg kvs "model" with
    | none => Except.error "TypeError: ModelParameters missing required argument model"
    | some _ => Except.ok (applyParamOverrides {} kvs)

/-- `LakeviewConfig` from `config.py` with its dataclass defaults. -/
structure LakeviewConfig where
  model_provider : JVal := JVal.str "anthropic"
  model_name : JVal := JVal.str "claude-3-5-sonnet-20241022"
deriving Repr, BEq

/-- `LakeviewConfig(**lakeview_data)` (`config.py` line 168): a `TypeError` is
raised for an unexpected keyword. -/
def mkLakeviewConfig (kvs : List (String × JVal)) : Except String LakeviewConfig :=
  if kvs.any (fun kv => !(kv.1 = "model_provider" || kv.1 = "model_name")) then
    Except.error "TypeError: LakeviewConfig got an unexpected keyword argument"
  else
    Except.ok (kvs.foldl (fun acc kv =>
      if kv.1 = "model_provider" then { acc with model_provider := kv.2 }
      else { acc with model_name := kv.2 }) {})

/-- `Config` from `config.py`.  The scalar fields hold whatever JSON value the
file supplied (the constructor never validates them). -/
structure Config where
  default_provider : JVal
  max_steps : JVal
  enable_lakeview : JVal
  model_providers : List (String × ModelParameters)
  lakeview_config : LakeviewConfig
deriving Repr, BEq

/-- The initial `config_data` dictionary (`config.py` lines 74-83), as an
insertion-ordered association list. -/
def baseConfigData : List (String × JVal) :=
  [("default_provider", JVal.str "anthropic"),
   ("max_steps", JVal.num 20),
   ("enable_lakeview", JVal.bool true),
   ("model_providers", JVal.obj []),
   ("lakeview_config", JVal.obj
     [("model_provider", JVal.str "anthropic"),
      ("model_name", JVal.str "claude-3-5-sonnet-20241022")])]

/-- Python `dict.update`: existing keys are overwritten in place, new keys are
appended in iteration order. -/
def dictUpdate (base upd : List (String × JVal)) : List (String × JVal) :=
  upd.foldl (fun acc kv =>
    if acc.any (fun e => e.1 = kv.1) then
      acc.map (fun e => if e.1 = kv.1 then (e.1, kv.2) else e)
    else acc ++ [kv]) base

/-- Python `dict.get(key, default)` / `dict[key]` on the association list. -/
def dictGet (d : List (String × JVal)) (k : String) (deflt : JVal) : JVal :=
  match d.find? (fun e => e.1 = k) with
  | some e => e.2
  | none => deflt

/-- Turn an `os.getenv` result into the stored attribute value. -/
def envOr (env : String → Option String) (key : String) : JVal :=
  match env key with
  | none => JVal.null
  | some s => JVal.str s

/-- The six built-in provider entries (`config.py` lines 95-150), in insertion
order, with environment-variable lookups left to the `env` collaborator. -/
def default_providers (env : String → Option String) :
    List (String × ModelParameters) :=
  [("openai",
    { model := JVal.str "gpt-4o", api_key := envOr env "OPENAI_API_KEY"
      max_tokens := JVal.num 128000, temperature := JVal.num (1 / 2)
      top_p := JVal.num 1, max_retries := JVal.num 10 }),
   ("anthropic",
    { model := JVal.str "claude-3-5-sonnet-20241022"
      api_key := envOr env "ANTHROPIC_API_KEY"
      max_tokens := JVal.num 4096, temperature := JVal.num (1 / 2)
      top_p := JVal.num 1, top_k := JVal.num 0, max_retries := JVal.num 10 }),
   ("azure",
    { model := JVal.str "gpt-4o", api_key := envOr env "AZURE_API_KEY"
      base_url := envOr env "AZURE_BASE_URL"
      api_version := JVal.str "2024-03-01-preview"
      max_tokens := JVal.num 4096, temperature := JVal.num (1 / 2)
      top_p := JVal.num 1, top_k := JVal.num 0, max_retries := JVal.num 10 }),
   ("openrouter",
    { model := JVal.str "openai/gpt-4o", api_key := envOr env "OPENROUTER_API_KEY"
      max_tokens := JVal.num 4096, temperature := JVal.num (1 / 2)
      top_p := JVal.num 1, top_k := JVal.num 0, max_retries := JVal.num 10 }),
   ("doubao",
    { model := JVal.str "doubao-seed-1.6", api_key := envOr env "DOUBAO_API_KEY"
      base_url := envOr env "DOUBAO_API_BASE_URL"
      max_tokens := JVal.num 8192, temperature := JVal.num (1 / 2)
      top_p := JVal.num 1, max_retries := JVal.num 20 }),
   ("ollama",
    { model := JVal.str "llama3", base_url := JVal.str "http://localhost:11434"
      max_tokens := JVal.num 4096, temperature := JVal.num (1 / 2)
      top_p := JVal.num 1, max_retries := JVal.num 10 })]

/-- The provider merge loop (`config.py` lines 153-162): a known provider gets
field-by-field `setattr` overrides; an unknown one is constructed from its
entry; a non-mapping entry raises (`.items()` / `**` on a non-dict). -/
def mergeProviders (env : String → Option String)
    (fileProvs : List (String × JVal)) :
    Except String (List (String × ModelParameters)) :=
  fileProvs.foldlM (fun acc nv =>
    match nv.2 with
    | JVal.obj kvs =>
      if acc.any (fun e => e.1 = nv.1) then
        Except.ok (acc.map (fun e =>
          if e.1 = nv.1 then (e.1, applyParamOverrides e.2 kvs) else e))
      else
        (mkModelParameters kvs).map (fun p => acc ++ [(nv.1, p)])
    | _ => Except.error ("TypeError: provider entry for " ++ nv.1 ++ " is not a mapping"))
    (default_providers env)

/-- The outcome of reading and JSON-parsing the configuration file: absent
(`os.path.exists` false), unreadable (`IOError`), malformed (`JSONDecodeError`),
or parsed to a top-level JSON object. -/
inductive FileOutcome where
  | absent
  | unreadable (msg : String)
  | malformed (msg : String)
  | parsed (fields : List (String × JVal))

/-- The warning printed when the file exists but cannot be loaded
(`config.py` line 92). -/
def warnMsg (fname msg : String) : String :=
  "Warning: Could not load config file " ++ fname ++ ": " ++ msg

/-- `load_config` from `config.py`.  The returned list collects the warnings
printed along the way; the `Except` error case models an uncaught Python
exception escaping `load_config` (only `JSONDecodeError` and `IOError` from
the file read are caught). -/
def load_config (config_file : Option String) (env : String → Option String)
    (file : FileOutcome) : Except String (Config × List String) :=
  let fname := config_file.getD "my_agent_config.json"
  let cw : List (String × JVal) × List String :=
    match file with
    | FileOutcome.absent => (baseConfigData, [])
    | FileOutcome.unreadable msg => (baseConfigData, [warnMsg fname msg])
    | FileOutcome.malformed msg => (baseConfigData, [warnMsg fname msg])
    | FileOutcome.parsed kvs => (dictUpdate baseConfigData kvs, [])
  let config_data := cw.1
  match dictGet config_data "model_providers" (JVal.obj []) with
  | JVal.obj fileProvs =>
    match mergeProviders env fileProvs with
    | Except.error e => Except.error e
    | Except.ok provs =>
      match dictGet config_data "lakeview_config" (JVal.obj []) with
      | JVal.obj lkvs =>
        match mkLakeviewConfig lkvs with
        | Except.error e => Except.error e
        | Except.ok lc =>
          Except.ok
            ({ default_provider := dictGet config_data "default_provider" JVal.null
               max_steps := dictGet config_data "max_steps" JVal.null
               enable_lakeview := dictGet config_data "enable_lakeview" JVal.null
               model_providers := provs
               lakeview_config := lc }, cw.2)
      | _ => Except.error "TypeError: LakeviewConfig argument is not a mapping"
  | _ => Except.error "AttributeError: model_providers value is not a mapping"

/-- The configuration `load_config` produces when the file contributes
nothing. -/
def defaultLoadedConfig (env : String → Option String) : Config :=
  { default_provider := JVal.str "anthropic"
    max_steps := JVal.num 20
    enable_lakeview := JVal.bool true
    model_providers := default_providers env
    lakeview_config := {} }

/-- A well-formed JSON document on which `load_config` raises: its
`lakeview_config` object carries an unexpected key. -/
def badLakeviewFile : FileOutcome :=
  FileOutcome.parsed [("lakeview_config", JVal.obj [("bogus", JVal.num 1)])]

/-!
## Helper lemmas
-/

theorem LLMUsage.add_assoc (a b c : LLMUsage) :
    LLMUsage.add (LLMUsage.add a b) c = LLMUsage.add a (LLMUsage.add b c) := by
  simp [LLMUsage.add, Nat.add_assoc]

theorem LLMUsage.zero_add (a : LLMUsage) : LLMUsage.add LLMUsage.zero a = a := by
  simp [LLMUsage.add, LLMUsage.zero]

theorem LLMUsage.add_zero (a : LLMUsage) : LLMUsage.add a LLMUsage.zero = a := by
  simp [LLMUsage.add, LLMUsage.zero]

theorem LLMUsage.foldl_add_eq (l : List LLMUsage) (acc : LLMUsage) :
    l.foldl LLMUsage.add acc = LLMUsage.add acc (l.foldr LLMUsage.add LLMUsage.zero) := by
  induction l generalizing acc with
  | nil => simp [LLMUsage.add_zero]
  | cons u l ih =>
    simp only [List.foldl_cons, List.foldr_cons, ih, LLMUsage.add_assoc]

theorem runFrom_length_le (oracle : Nat → StepOutcome × LLMUsage) (fuel n : Nat) :
    (runFrom oracle fuel n).steps.length ≤ fuel := by
  induction fuel generalizing n with
  | zero => simp [runFrom]
  | succ fuel ih =>
    rcases ho : oracle n with ⟨o, u⟩
    cases o with
    | cont =>
      simpa [runFrom, ho] using Nat.succ_le_succ (ih (n + 1))
    | completed res => simp [runFrom, ho]
    | errored msg => simp [runFrom, ho]

theorem runFrom_step_numbers (oracle : Nat → StepOutcome × LLMUsage) (fuel n : Nat) :
    (runFrom oracle fuel n).steps.map StepRecord.step_number =
      List.range' n (runFrom oracle fuel n).steps.length := by
  induction fuel generalizing n with
  | zero => simp [runFrom]
  | succ fuel ih =>
    rcases ho : oracle n with ⟨o, u⟩
    cases o with
    | cont =>
      simp [runFrom, ho, ih (n + 1), List.range'_succ]
    | completed res => simp [runFrom, ho, List.range'_succ]
    | errored msg => simp [runFrom, ho, List.range'_succ]

theorem runFrom_exhaustion (oracle : Nat → StepOutcome × LLMUsage)
    (h : ∀ k, (oracle k).1 = StepOutcome.cont) (fuel n : Nat) :
    (runFrom oracle fuel n).success = false ∧
      (runFrom oracle fuel n).final_result = some "max steps exceeded" ∧
      (runFrom oracle fuel n).steps.length = fuel := by
  induction fuel generalizing n with
  | zero => simp [runFrom]
  | succ fuel ih =>
    have hn := h n
    rcases ho : oracle n with ⟨o, u⟩
    rw [ho] at hn
    simp only at hn
    subst hn
    rcases ih (n + 1) with ⟨h1, h2, h3⟩
    simp [runFrom, ho, h1, h2, h3]

theorem runFrom_total_foldr (oracle : Nat → StepOutcome × LLMUsage) (fuel n : Nat) :
    (runFrom oracle fuel n).total_tokens =
      ((runFrom oracle fuel n).steps.map StepRecord.usage).foldr
        LLMUsage.add LLMUsage.zero := by
  induction fuel generalizing n with
  | zero => simp [runFrom]
  | succ fuel ih =>
    rcases ho : oracle n with ⟨o, u⟩
    cases o with
    | cont => simp [runFrom, ho, ih (n + 1)]
    | completed res => simp [runFrom, ho, LLMUsage.add_zero]
    | errored msg => simp [runFrom, ho, LLMUsage.add_zero]

theorem resolveNames_ok (ns : List String) (ts : List Tool)
    (h : resolveNames ns = Except.ok ts) : ts.map Tool.get_name = ns := by
  induction ns generalizing ts with
  | nil =>
    simp only [resolveNames] at h
    cases h
    rfl
  | cons n ns ih =>
    simp only [resolveNames] at h
    split at h
    · cases hr : resolveNames ns with
      | ok ts0 =>
        rw [hr] at h
        cases h
        simp [mkTool, ih ts0 hr]
      | error e => rw [hr] at h; cases h
    · cases h

theorem execOneCall_call_id (tools : List Tool) (c : ToolCall) :
    (execOneCall tools c).call_id = c.id := by
  unfold execOneCall
  split
  · rfl
  · split <;> rfl

/-!
## The claims
-/

/-- C1: with the mandatory-patch flag set, `is_task_completed` is false exactly
when the test-filtered workspace diff is empty and true when it is non-empty,
regardless of the model's claimed completion. -/
theorem is_task_completed_mandatory_patch (claims : Bool) (d : String) :
    (remove_patches_to_tests d = "" → is_task_completed true claims d = false) ∧
    (remove_patches_to_tests d ≠ "" → is_task_completed true claims d = true) := by
  constructor
  · intro h
    simp [is_task_completed, h]
  · intro h
    simp [is_task_completed, h]

/-- C1 witness: a diff touching only `tests/test_example.py` filters to the
empty string, so completion is refused even though the model claims success; a
diff with a non-test segment is accepted even when the model claims nothing. -/
theorem is_task_completed_mandatory_patch_witness :
    remove_patches_to_tests testOnlyPatch = "" ∧
      is_task_completed true true testOnlyPatch = false ∧
      remove_patches_to_tests mixedPatch ≠ "" ∧
      is_task_completed true false mixedPatch = true :=
  ⟨by decide,
   (is_task_completed_mandatory_patch true testOnlyPatch).1 (by decide),
   by decide,
   (is_task_completed_mandatory_patch false mixedPatch).2 (by decide)⟩

/-- C2: the test-patch filter is idempotent on every diff string; a diff
containing only a hunk for `tests/test_example.py` filters to the empty
string, and a diff with one test-file segment and one non-test segment filters
to exactly the non-test segment. -/
theorem remove_patches_to_tests_filtering :
    (∀ d : String,
      remove_patches_to_tests (remove_patches_to_tests d) = remove_patches_to_tests d) ∧
    remove_patches_to_tests testOnlyPatch = "" ∧
    remove_patches_to_tests mixedPatch = corePatchSegment :=
  ⟨remove_patches_to_tests_idem, by decide, by decide⟩

/-- C3: every execution stays within the step budget with 1-based consecutive
step numbers, and exhausting the budget while never terminal yields the
synthetic max-steps failure rather than further steps. -/
theorem execute_task_step_budget (oracle : Nat → StepOutcome × LLMUsage)
    (max_steps : Nat) :
    (execute_task oracle max_steps).steps.length ≤ max_steps ∧
    (execute_task oracle max_steps).steps.map StepRecord.step_number =
      List.range' 1 (execute_task oracle max_steps).steps.length ∧
    ((∀ k, (oracle k).1 = StepOutcome.cont) →
      (execute_task oracle max_steps).success = false ∧
      (execute_task oracle max_steps).final_result = some "max steps exceeded" ∧
      (execute_task oracle max_steps).steps.length = max_steps) :=
  ⟨runFrom_length_le oracle max_steps 1,
   runFrom_step_numbers oracle max_steps 1,
   fun h => runFrom_exhaustion oracle h max_steps 1⟩

/-- An oracle whose model step never terminates the task. -/
def alwaysContinue : Nat → StepOutcome × LLMUsage :=
  fun _ => (StepOutcome.cont, LLMUsage.zero)

/-- C3 witness: with a never-terminal oracle and a budget of 3, the execution
records exactly 3 steps numbered 1, 2, 3 and fails with the max-steps
result. -/
theorem execute_task_step_budget_witness :
    (execute_task alwaysContinue 3).steps.length ≤ 3 ∧
      (execute_task alwaysContinue 3).steps.map StepRecord.step_number =
        List.range' 1 (execute_task alwaysContinue 3).steps.length ∧
      (execute_task alwaysContinue 3).success = false ∧
      (execute_task alwaysContinue 3).final_result = some "max steps exceeded" ∧
      (execute_task alwaysContinue 3).steps.length = 3 :=
  have h := execute_task_step_budget alwaysContinue 3
  have h3 := h.2.2 (fun _ => rfl)
  ⟨h.1, h.2.1, h3.1, h3.2.1, h3.2.2⟩

/-- C4: the dispatcher returns exactly one result per call, in call order, and
each result's correlation identifier is its call's identifier. -/
theorem dispatch_cardinality (tools : List Tool) (calls : List ToolCall) :
    (dispatch tools calls).length = calls.length ∧
    (dispatch tools calls).map ToolResult.call_id = calls.map ToolCall.id := by
  refine ⟨by simp [dispatch], ?_⟩
  unfold dispatch
  rw [List.map_map]
  exact List.map_congr_left (fun c _ => execOneCall_call_id tools c)

/-- C5: a missing/invalid `command` argument and an exception escaping the
subprocess are both converted by `BashTool.execute` into a result with status
`-1` and a descriptive error; an exception escaping any tool is converted at
the dispatcher boundary into an error result instead of propagating. -/
theorem tool_failures_become_results
    (shell : String → Except String (String × String × Option Int))
    (arguments : List (String × JVal)) :
    (lookupArg arguments "command" = none →
      (BashTool.execute shell arguments).error_code = -1 ∧
      (BashTool.execute shell arguments).error =
        some "No command provided for the bash tool") ∧
    (∀ c e, lookupArg arguments "command" = some (JVal.str c) → c ≠ "" →
      shell c = Except.error e →
      (BashTool.execute shell arguments).error_code = -1 ∧
      (BashTool.execute shell arguments).error =
        some ("Error running bash command: " ++ e)) ∧
    (∀ (tools : List Tool) (call : ToolCall) (t : Tool) (e : String),
      tools.find? (fun t0 => t0.get_name = call.name) = some t →
      t.exec call.arguments = Except.error e →
      (execOneCall tools call).status = -1 ∧
      (execOneCall tools call).error =
        some ("Tool execution failed: " ++ e)) := by
  refine ⟨?_, ?_, ?_⟩
  · intro h
    simp [BashTool.execute, h, noCommandResult]
  · intro c e hc hne hshell
    simp [BashTool.execute, hc, hne, hshell]
  · intro tools call t e hfind hexec
    simp [execOneCall, hfind, hexec]

/-- A shell collaborator that always raises. -/
def failingShell : String → Except String (String × String × Option Int) :=
  fun _ => Except.error "boom"

/-- A tool whose execution always raises. -/
def failingTool : Tool :=
  { get_name := "kaput", exec := fun _ => Except.error "kaput failed" }

/-- A call addressed to the failing tool. -/
def failingCall : ToolCall :=
  { name := "kaput", call_id := "call-1", arguments := [], id := "call-1" }

/-- C5 witness: concrete conversions — no `command` argument, a raising
subprocess, and a raising tool at the dispatcher boundary. -/
theorem tool_failures_become_results_witness :
    ((BashTool.execute failingShell []).error_code = -1 ∧
      (BashTool.execute failingShell []).error =
        some "No command provided for the bash tool") ∧
    ((BashTool.execute failingShell [("command", JVal.str "ls")]).error_code = -1 ∧
      (BashTool.execute failingShell [("command", JVal.str "ls")]).error =
        some ("Error running bash command: " ++ "boom")) ∧
    ((execOneCall [failingTool] failingCall).status = -1 ∧
      (execOneCall [failingTool] failingCall).error =
        some ("Tool execution failed: " ++ "kaput failed")) :=
  ⟨(tool_failures_become_results failingShell []).1 rfl,
   (tool_failures_become_results failingShell [("command", JVal.str "ls")]).2.1
     "ls" "boom" rfl (by decide) rfl,
   (tool_failures_become_results failingShell []).2.2
     [failingTool] failingCall failingTool "kaput failed" rfl rfl⟩

/-- C6: `new_task` with the workspace root or the issue text absent fails with
the designated `MissingParameterError` and leaves the engine state
unchanged. -/
theorem new_task_missing_params (a : MyAgentState) (task : String)
    (args : TaskArgs) (h : args.project_path = none ∨ args.issue = none) :
    (new_task a task args).1 = a ∧
    ∃ p, (new_task a task args).2 =
      Except.error (SetupError.MissingParameterError p) := by
  rcases h with h | h
  · refine ⟨?_, "project_path", ?_⟩ <;> (unfold new_task; rw [h])
  · cases hp : args.project_path with
    | none =>
      refine ⟨?_, "project_path", ?_⟩ <;> (unfold new_task; rw [hp])
    | some pp =>
      refine ⟨?_, "issue", ?_⟩ <;> (unfold new_task; rw [hp, h])

/-- C6 witness: an empty argument set makes `new_task` fail with a
`MissingParameterError` without touching the engine state. -/
theorem new_task_missing_params_witness :
    (new_task {} "test" {}).1 = ({} : MyAgentState) ∧
    ∃ p, (new_task {} "test" {}).2 =
      Except.error (SetupError.MissingParameterError p) :=
  new_task_missing_params {} "test" {} (Or.inl rfl)

/-- C7: with no explicit tool-name list, `new_task` resolves exactly the four
default tools including the shell tool; with an explicit list, the resolved
tools match the requested names in order (so `bash` comes first when requested
first), and in particular the count equals the list's length. -/
theorem default_tool_resolution :
    (∀ (a : MyAgentState) (task pp iss : String),
      (new_task a task { project_path := some pp, issue := some iss }).1.tools.length = 4 ∧
      (new_task a task { project_path := some pp, issue := some iss }).1.tools.map
        Tool.get_name = known_tools ∧
      "bash" ∈ (new_task a task { project_path := some pp, issue := some iss }).1.tools.map
        Tool.get_name) ∧
    (∀ (names : List String) (ts : List Tool), resolve names = Except.ok ts →
      names ≠ [] → ts.map Tool.get_name = names ∧ ts.length = names.length) := by
  constructor
  · intro a task pp iss
    refine ⟨?_, ?_, ?_⟩ <;>
      simp [new_task, resolve, resolveNames, known_tools, mkTool]
  · intro names ts hok hne
    unfold resolve at hok
    rw [if_neg (by simpa using hne)] at hok
    have hmap := resolveNames_ok names ts hok
    exact ⟨hmap, by rw [← hmap, List.length_map]⟩

/-- C7 witness: resolving the explicitly requested default four names yields
four tools with those names in order, `bash` first. -/
theorem default_tool_resolution_witness :
    (([mkTool "bash", mkTool "str_replace_based_edit_tool",
        mkTool "sequentialthinking", mkTool "task_done"] : List Tool).map
      Tool.get_name =
        ["bash", "str_replace_based_edit_tool", "sequentialthinking", "task_done"]) ∧
    ([mkTool "bash", mkTool "str_replace_based_edit_tool",
        mkTool "sequentialthinking", mkTool "task_done"] : List Tool).length =
      (["bash", "str_replace_based_edit_tool", "sequentialthinking",
        "task_done"] : List String).length :=
  default_tool_resolution.2
    ["bash", "str_replace_based_edit_tool", "sequentialthinking", "task_done"]
    [mkTool "bash", mkTool "str_replace_based_edit_tool",
     mkTool "sequentialthinking", mkTool "task_done"]
    rfl (by decide)

/-- C8: `LLMUsage` addition is associative with the all-zero usage as a
two-sided identity, and the execution's aggregate usage equals the per-step
usages summed in order, in either grouping, from zero. -/
theorem token_usage_accumulation :
    (∀ a b c : LLMUsage,
      LLMUsage.add (LLMUsage.add a b) c = LLMUsage.add a (LLMUsage.add b c)) ∧
    (∀ a : LLMUsage,
      LLMUsage.add LLMUsage.zero a = a ∧ LLMUsage.add a LLMUsage.zero = a) ∧
    (∀ (oracle : Nat → StepOutcome × LLMUsage) (max_steps : Nat),
      (execute_task oracle max_steps).total_tokens =
        ((execute_task oracle max_steps).steps.map StepRecord.usage).foldr
          LLMUsage.add LLMUsage.zero ∧
      (execute_task oracle max_steps).total_tokens =
        ((execute_task oracle max_steps).steps.map StepRecord.usage).foldl
          LLMUsage.add LLMUsage.zero) := by
  refine ⟨LLMUsage.add_assoc, fun a => ⟨LLMUsage.zero_add a, LLMUsage.add_zero a⟩, ?_⟩
  intro oracle max_steps
  have hr := runFrom_total_foldr oracle max_steps 1
  refine ⟨hr, ?_⟩
  rw [LLMUsage.foldl_add_eq, LLMUsage.zero_add]
  exact hr

/-- C9 counterexample: a raw provider response whose message has no content and
no tool calls is parsed into a successfully returned `LLMResponse` with empty
content and no tool calls — the gateway does silently return empty content. -/
theorem chat_empty_content_counterexample :
    LLMClient.chat (Except.ok emptyRawResponse) =
      Except.ok (chat_openai_compatible emptyRawResponse) ∧
    (chat_openai_compatible emptyRawResponse).content = "" ∧
    (chat_openai_compatible emptyRawResponse).tool_calls = none :=
  ⟨rfl, rfl, rfl⟩

/-- C9 amended: a transport or authentication failure propagates out of `chat`
unchanged as the underlying client's exception (no wrapper type exists), and a
successfully returned response's content is exactly the provider message's
content, defaulting to the empty string — possibly empty with no tool
calls. -/
theorem chat_error_passthrough :
    (∀ e, LLMClient.chat (Except.error e) = Except.error e) ∧
    (∀ r, LLMClient.chat (Except.ok r) = Except.ok (chat_openai_compatible r)) ∧
    (∀ r : RawResponse,
      (chat_openai_compatible r).content = r.message.content.getD "" ∧
      ((chat_openai_compatible r).tool_calls = none ↔ r.message.tool_calls = [])) := by
  refine ⟨fun e => rfl, fun r => rfl, fun r => ⟨rfl, ?_⟩⟩
  cases h : r.message.tool_calls with
  | nil => simp [chat_openai_compatible, h]
  | cons tc tcs => simp [chat_openai_compatible, h]

/-- C10 counterexample: a readable file with well-formed JSON whose
`lakeview_config` object carries an unknown key makes `load_config` raise an
uncaught `TypeError` instead of degrading to defaults — `load_config` is not
exception-free. -/
theorem load_config_raises_counterexample :
    load_config none (fun _ => none) badLakeviewFile =
      Except.error "TypeError: LakeviewConfig got an unexpected keyword argument" :=
  rfl

/-- C10 amended: when the configuration file is absent, unreadable or contains
malformed JSON, `load_config` returns the hard-coded defaults
(`default_provider` anthropic, `max_steps` 20, the six built-in providers),
printing a warning in the unreadable and malformed cases and nothing in the
absent case; but with readable well-formed JSON of an unexpected shape it can
raise. -/
theorem load_config_graceful_defaults (cf : Option String)
    (env : String → Option String) (msg : String) :
    load_config cf env FileOutcome.absent =
      Except.ok (defaultLoadedConfig env, []) ∧
    load_config cf env (FileOutcome.unreadable msg) =
      Except.ok (defaultLoadedConfig env,
        [warnMsg (cf.getD "my_agent_config.json") msg]) ∧
    load_config cf env (FileOutcome.malformed msg) =
      Except.ok (defaultLoadedConfig env,
        [warnMsg (cf.getD "my_agent_config.json") msg]) ∧
    (defaultLoadedConfig env).default_provider = JVal.str "anthropic" ∧
    (defaultLoadedConfig env).max_steps = JVal.num 20 ∧
    (defaultLoadedConfig env).model_providers.map Prod.fst =
      ["openai", "anthropic", "azure", "openrouter", "doubao", "ollama"] :=
  ⟨rfl, rfl, rfl, rfl, rfl, rfl⟩

end MyAgent
